import Mathlib

/-!
A shallow embedding of the nest-cli thermostat client (src/auth.rs,
src/client.rs, src/commands.rs).  The pure decision logic of the command
translator and device-name resolution is translated directly; the
filesystem side effects of the login path are modelled as an explicit
event trace; network transport and the OAuth library internals are out of
scope.  Rust f64 temperatures are modelled as exact rationals; Rust
strings are modelled as Lean strings with character-level operations.
-/

namespace NestCli

/-- Character-level test that the first list is an initial segment of the
second; used to model Rust str::starts_with and substring search. -/
def occurs_at_front : List Char → List Char → Bool
  | [], _ => true
  | _ :: _, [] => false
  | n :: ns, h :: hs => n == h && occurs_at_front ns hs

/-- Model of Rust str::starts_with. -/
def starts_with (s pre : String) : Bool :=
  occurs_at_front pre.data s.data

/-- Substring occurrence over character lists. -/
def occurs_in : List Char → List Char → Bool
  | needle, [] => needle == []
  | needle, h :: hs => occurs_at_front needle (h :: hs) || occurs_in needle hs

/-- Whether msg mentions needle as a (contiguous) substring. -/
def mentions (msg needle : String) : Bool :=
  occurs_in needle.data msg.data

/-- Model of Rust str::to_lowercase (ASCII-adequate for the mode words). -/
def to_lowercase (s : String) : String :=
  String.mk (s.data.map Char.toLower)

/-- The characters after the last slash; models name.rsplit('/').next(). -/
def last_segment (l : List Char) : List Char :=
  (l.reverse.takeWhile (fun c => c != '/')).reverse

/-- Model of name.rsplit('/').next().unwrap_or(name) in list_devices;
rsplit always yields at least one item, namely the part after the last
slash (the whole string when no slash occurs). -/
def short_id (name : String) : String :=
  String.mk (last_segment name.data)

/-- Minimal model of serde_json::Value, with numbers as exact rationals. -/
inductive Json where
  | null
  | bool (b : Bool)
  | num (q : ℚ)
  | str (s : String)
  | arr (elems : List Json)
  | obj (fields : List (String × Json))

/-- Model of serde_json Value::get on an object key (map lookup). -/
def Json.get (j : Json) (key : String) : Option Json :=
  match j with
  | .obj fields => fields.lookup key
  | _ => none

/-- Model of Value::as_str. -/
def Json.asStr : Json → Option String
  | .str s => some s
  | _ => none

/-- Model of Value::as_f64 (numbers only). -/
def Json.asF64 : Json → Option ℚ
  | .num q => some q
  | _ => none

/-- A device's trait map: HashMap from trait name to JSON value. -/
abbrev Traits := List (String × Json)

/-- commands.rs get_trait: look up "sdm.devices.traits.<name>". -/
def get_trait (traits : Traits) (name : String) : Option Json :=
  traits.lookup ("sdm.devices.traits." ++ name)

/-- commands.rs celsius_to_fahrenheit: c * 9.0 / 5.0 + 32.0. -/
def celsius_to_fahrenheit (c : ℚ) : ℚ :=
  c * 9 / 5 + 32

/-- commands.rs fahrenheit_to_celsius: (f - 32.0) * 5.0 / 9.0. -/
def fahrenheit_to_celsius (f : ℚ) : ℚ :=
  (f - 32) * 5 / 9

/-- A device command: name plus a parameter map (client.rs execute_command
payload built in commands.rs). -/
structure Command where
  cmdName : String
  params : List (String × Json)

/-- commands.rs THERMOSTAT_TYPE constant. -/
def THERMOSTAT_TYPE : String := "sdm.devices.types.THERMOSTAT"

/-- The mode string read in set_temperature: ThermostatMode.mode as a
string, defaulting to "HEAT" (unwrap_or("HEAT")). -/
def thermostat_mode (traits : Traits) : String :=
  ((((get_trait traits "ThermostatMode").bind (fun v => v.get "mode")).bind
      Json.asStr).getD "HEAT")

/-- commands.rs set_temperature, the pure decision core: from the fetched
device's optional trait map and the target Fahrenheit temperature to
either an error message or the command dispatched to execute_command.
Absent traits fail first; then the current mode selects SetCool, the
HEATCOOL refusal, or the SetHeat fallback. -/
def set_temperature (traits : Option Traits) (temp_f : ℚ) :
    Except String Command :=
  match traits with
  | none => Except.error "Device has no traits"
  | some traits =>
    let mode := thermostat_mode traits
    let temp_c := fahrenheit_to_celsius temp_f
    if mode = "COOL" then
      Except.ok ⟨"sdm.devices.commands.ThermostatTemperatureSetpoint.SetCool",
        [("coolCelsius", Json.num temp_c)]⟩
    else if mode = "HEATCOOL" then
      Except.error "In HEATCOOL mode, use separate heat/cool setpoints. Switch to HEAT or COOL mode first, or set range via the Google Home app."
    else
      Except.ok ⟨"sdm.devices.commands.ThermostatTemperatureSetpoint.SetHeat",
        [("heatCelsius", Json.num temp_c)]⟩

/-- commands.rs set_mode, the pure decision core: lowercase the input,
match against the four modes, and either build the SetMode command with
the canonical upper-case mode or fail naming the (lowercased) input. -/
def set_mode (mode : String) : Except String Command :=
  let lower := to_lowercase mode
  if lower = "heat" then
    Except.ok ⟨"sdm.devices.commands.ThermostatMode.SetMode",
      [("mode", Json.str "HEAT")]⟩
  else if lower = "cool" then
    Except.ok ⟨"sdm.devices.commands.ThermostatMode.SetMode",
      [("mode", Json.str "COOL")]⟩
  else if lower = "heatcool" then
    Except.ok ⟨"sdm.devices.commands.ThermostatMode.SetMode",
      [("mode", Json.str "HEATCOOL")]⟩
  else if lower = "off" then
    Except.ok ⟨"sdm.devices.commands.ThermostatMode.SetMode",
      [("mode", Json.str "OFF")]⟩
  else
    Except.error ("Unknown mode: " ++ lower ++ ". Use heat, cool, heatcool, or off.")

/-- One line of the device_status report; number formatting (one-decimal
rounding for temperatures, whole percent for humidity) is presentation
and is abstracted: each field carries the underlying value printed. -/
inductive StatusField where
  | nameField (s : String)
  | temperature (celsius : ℚ)
  | humidity (percent : ℚ)
  | mode (m : String)
  | hvac (s : String)
  | heatSetpoint (celsius : ℚ)
  | coolSetpoint (celsius : ℚ)
  | eco (m : String)
  | connectivity (s : String)
deriving DecidableEq

/-- An if-let block of device_status: at most one field, present exactly
when the extracted optional value is present. -/
def opt_field {α : Type} (o : Option α) (mk : α → StatusField) :
    List StatusField :=
  match o with
  | some a => [mk a]
  | none => []

/-- Info.customName extraction with the "(unnamed)" fallback. -/
def info_field (traits : Traits) : StatusField :=
  StatusField.nameField
    ((((get_trait traits "Info").bind (fun v => v.get "customName")).bind
        Json.asStr).getD "(unnamed)")

/-- Temperature.ambientTemperatureCelsius as f64. -/
def temp_value (traits : Traits) : Option ℚ :=
  ((get_trait traits "Temperature").bind
      (fun v => v.get "ambientTemperatureCelsius")).bind Json.asF64

/-- Humidity.ambientHumidityPercent as f64. -/
def humidity_value (traits : Traits) : Option ℚ :=
  ((get_trait traits "Humidity").bind
      (fun v => v.get "ambientHumidityPercent")).bind Json.asF64

/-- ThermostatMode.mode as string. -/
def mode_value (traits : Traits) : Option String :=
  ((get_trait traits "ThermostatMode").bind (fun v => v.get "mode")).bind
    Json.asStr

/-- ThermostatHvac.status as string. -/
def hvac_value (traits : Traits) : Option String :=
  ((get_trait traits "ThermostatHvac").bind (fun v => v.get "status")).bind
    Json.asStr

/-- ThermostatEco.mode as string. -/
def eco_value (traits : Traits) : Option String :=
  ((get_trait traits "ThermostatEco").bind (fun v => v.get "mode")).bind
    Json.asStr

/-- Connectivity.status as string. -/
def connectivity_value (traits : Traits) : Option String :=
  ((get_trait traits "Connectivity").bind (fun v => v.get "status")).bind
    Json.asStr

/-- The setpoint block of device_status: both lines are nested inside the
presence of the ThermostatTemperatureSetpoint trait. -/
def setpoint_fields (traits : Traits) : List StatusField :=
  match get_trait traits "ThermostatTemperatureSetpoint" with
  | none => []
  | some sp =>
      opt_field ((sp.get "heatCelsius").bind Json.asF64)
        StatusField.heatSetpoint ++
      opt_field ((sp.get "coolCelsius").bind Json.asF64)
        StatusField.coolSetpoint

/-- The full report body of commands.rs device_status over a trait map:
the name line followed by each optional field in program order. -/
def status_report (traits : Traits) : List StatusField :=
  info_field traits ::
    (opt_field (temp_value traits) StatusField.temperature ++
     opt_field (humidity_value traits) StatusField.humidity ++
     opt_field (mode_value traits) StatusField.mode ++
     opt_field (hvac_value traits) StatusField.hvac ++
     setpoint_fields traits ++
     opt_field (eco_value traits) StatusField.eco ++
     opt_field (connectivity_value traits) StatusField.connectivity)

/-- commands.rs device_status, the pure formatting core over the fetched
device's optional trait map: device.traits.ok_or("Device has no traits")
fails first, otherwise the report is produced. -/
def device_status (traits : Option Traits) :
    Except String (List StatusField) :=
  match traits with
  | none => Except.error "Device has no traits"
  | some t => Except.ok (status_report t)

/-- The fields of GoogleHomeEnterpriseSdmV1Device used by commands.rs. -/
structure Device where
  type_ : Option String
  devName : Option String
  traits : Option Traits

/-- Info.customName lookup of list_devices with the "(unnamed)" fallback. -/
def device_custom_name (d : Device) : String :=
  (((d.traits.bind (fun t => t.lookup "sdm.devices.traits.Info")).bind
      (fun v => v.get "customName")).bind Json.asStr).getD "(unnamed)"

/-- One output line of list_devices: short id, two spaces, custom name. -/
def device_line (d : Device) : String :=
  let nm := d.devName.getD "unknown"
  short_id nm ++ "  " ++ device_custom_name d

/-- commands.rs list_devices, the pure output core over the provider's
device list: keep only THERMOSTAT_TYPE devices; when none remain print
"No thermostats found." and succeed, otherwise print one line each. -/
def list_devices_output (devices : List Device) : List String :=
  let thermostats := devices.filter (fun d => d.type_ == some THERMOSTAT_TYPE)
  if thermostats.isEmpty then ["No thermostats found."]
  else thermostats.map device_line

/-- client.rs parent(): "enterprises/<project_id>". -/
def parent (project_id : String) : String :=
  "enterprises/" ++ project_id

/-- client.rs resolve_device_name: a reference starting with
"enterprises/" is used verbatim, otherwise it is qualified under the
current project. -/
def resolve_device_name (project_id : String) (id : String) : String :=
  if starts_with id "enterprises/" then id
  else parent project_id ++ "/devices/" ++ id

/-- A filesystem event of the login path (auth.rs). -/
inductive FsOp where
  | createDir (path : String)
  | chmod (path : String) (mode : Nat)
  | copyFile (src : String) (dest : String)
  | writeFile (path : String)
deriving DecidableEq

/-- Whether an event writes file contents to path p (fs::copy writes the
source bytes into its destination; fs::write writes its argument). -/
def writes_to (op : FsOp) (p : String) : Bool :=
  match op with
  | FsOp.copyFile _ dest => dest == p
  | FsOp.writeFile q => q == p
  | _ => false

/-- The per-user configuration directory (dirs::config_dir().join("nest-cli")),
abbreviated to its final component. -/
def config_dir : String := "nest-cli"

/-- auth.rs config_dir(): create_dir_all then chmod the directory 0700. -/
def config_dir_ops : List FsOp :=
  [FsOp.createDir config_dir, FsOp.chmod config_dir 0o700]

/-- Destination of the copied client registration. -/
def client_secret_dest : String := config_dir ++ "/client_secret.json"

/-- Destination of the saved project id. -/
def project_id_dest : String := config_dir ++ "/project_id"

/-- auth.rs login: the filesystem write and permission events under the
repository's control, in program order.  client_secret_path(),
project_id_path() and token_path() each call config_dir(); the token file
itself is written later by the OAuth library.  restrict_permissions is
fs::set_permissions with mode 0600. -/
def login_trace (client_secret_file : String) : List FsOp :=
  config_dir_ops ++
  [FsOp.copyFile client_secret_file client_secret_dest,
   FsOp.chmod client_secret_dest 0o600] ++
  config_dir_ops ++
  [FsOp.writeFile project_id_dest,
   FsOp.chmod project_id_dest 0o600] ++
  config_dir_ops

/-- Whether, before the first event writing contents to file p, the trace
contains a chmod of cp to the given mode; vacuously true when p is never
written. -/
def chmod_before_write : List FsOp → String → Nat → String → Bool
  | [], _, _, _ => true
  | op :: rest, cp, m, p =>
    if writes_to op p then false
    else
      match op with
      | FsOp.chmod q m2 =>
          if q == cp && m2 == m then true else chmod_before_write rest cp m p
      | _ => chmod_before_write rest cp m p

/-- Whether every event writing contents to file p is immediately
followed by a chmod of p to mode 0600. -/
def chmod_follows_write : List FsOp → String → Bool
  | [], _ => true
  | op :: rest, p =>
    if writes_to op p then
      match rest with
      | FsOp.chmod q m :: rest2 =>
          q == p && m == 0o600 && chmod_follows_write rest2 p
      | _ => false
    else chmod_follows_write rest p

/-- The on-disk credential state auth.rs get_authenticator runs against. -/
structure CredState where
  clientSecretExists : Bool
  tokenSetExists : Bool

/-- auth.rs get_authenticator, the decision core: it fails (with the
not-logged-in message) exactly when client_secret.json does not exist;
otherwise it builds the authenticator — it does not itself request a
token, and it performs no check of the persisted token file. -/
def get_authenticator (s : CredState) : Except String Unit :=
  if s.clientSecretExists then Except.ok ()
  else Except.error "Not logged in. Run `nest-cli auth login` first."

/-- Projects the error message out of a command result. -/
def error_msg {α : Type} : Except String α → Option String
  | Except.error m => some m
  | Except.ok _ => none

/-- C3: for every device state whose ThermostatMode trait reports mode
"HEATCOOL" and every target temperature, set_temperature fails with the
ambiguous-setpoint error and returns no command to dispatch. -/
theorem c3_set_temperature_heatcool_refuses (traits : Traits) (temp_f : ℚ)
    (h : thermostat_mode traits = "HEATCOOL") :
    set_temperature (some traits) temp_f =
      Except.error "In HEATCOOL mode, use separate heat/cool setpoints. Switch to HEAT or COOL mode first, or set range via the Google Home app." := by
  simp [set_temperature, h]

/-- Witness for C3: a device reporting mode "HEATCOOL" at 72°F. -/
theorem c3_set_temperature_heatcool_witness :
    set_temperature
      (some [("sdm.devices.traits.ThermostatMode",
              Json.obj [("mode", Json.str "HEATCOOL")])]) 72 =
      Except.error "In HEATCOOL mode, use separate heat/cool setpoints. Switch to HEAT or COOL mode first, or set range via the Google Home app." :=
  c3_set_temperature_heatcool_refuses
    [("sdm.devices.traits.ThermostatMode",
      Json.obj [("mode", Json.str "HEATCOOL")])] 72 (by decide)

/-- C4: set_temperature reads ThermostatMode.mode (defaulting to "HEAT"
when the trait is absent); mode "COOL" yields SetCool with
coolCelsius = (f - 32) * 5 / 9, and any mode other than "COOL" and
"HEATCOOL" yields SetHeat with heatCelsius = (f - 32) * 5 / 9. -/
theorem c4_set_temperature_branches (traits : Traits) (f : ℚ) :
    (thermostat_mode traits = "COOL" →
      set_temperature (some traits) f =
        Except.ok ⟨"sdm.devices.commands.ThermostatTemperatureSetpoint.SetCool",
          [("coolCelsius", Json.num ((f - 32) * 5 / 9))]⟩) ∧
    (thermostat_mode traits ≠ "COOL" → thermostat_mode traits ≠ "HEATCOOL" →
      set_temperature (some traits) f =
        Except.ok ⟨"sdm.devices.commands.ThermostatTemperatureSetpoint.SetHeat",
          [("heatCelsius", Json.num ((f - 32) * 5 / 9))]⟩) ∧
    (get_trait traits "ThermostatMode" = none → thermostat_mode traits = "HEAT") := by
  refine ⟨?_, ?_, ?_⟩
  · intro h
    simp [set_temperature, h, fahrenheit_to_celsius]
  · intro h1 h2
    simp [set_temperature, h1, h2, fahrenheit_to_celsius]
  · intro h
    simp [thermostat_mode, h]

/-- Witness for C4: mode "COOL" at 68°F gives SetCool with 20°C; an empty
trait map at 70°F defaults to "HEAT" and gives SetHeat. -/
theorem c4_set_temperature_branches_witness :
    set_temperature
      (some [("sdm.devices.traits.ThermostatMode",
              Json.obj [("mode", Json.str "COOL")])]) 68 =
      Except.ok ⟨"sdm.devices.commands.ThermostatTemperatureSetpoint.SetCool",
        [("coolCelsius", Json.num ((68 - 32) * 5 / 9))]⟩ ∧
    ((68 - 32) * 5 / 9 : ℚ) = 20 ∧
    set_temperature (some []) 70 =
      Except.ok ⟨"sdm.devices.commands.ThermostatTemperatureSetpoint.SetHeat",
        [("heatCelsius", Json.num ((70 - 32) * 5 / 9))]⟩ ∧
    thermostat_mode [] = "HEAT" :=
  ⟨(c4_set_temperature_branches
      [("sdm.devices.traits.ThermostatMode",
        Json.obj [("mode", Json.str "COOL")])] 68).1 (by decide),
   by norm_num,
   (c4_set_temperature_branches [] 70).2.1 (by decide) (by decide),
   (c4_set_temperature_branches [] 70).2.2 rfl⟩

/-- C5: resolve_device_name is a pure function of the device reference
and project id: a reference carrying the "enterprises/" prefix is
returned verbatim, and any other reference d is qualified as
"enterprises/(project)/devices/(d)". -/
theorem c5_resolve_device_name_spec (project_id id : String) :
    (starts_with id "enterprises/" = true →
      resolve_device_name project_id id = id) ∧
    (starts_with id "enterprises/" = false →
      resolve_device_name project_id id =
        "enterprises/" ++ project_id ++ "/devices/" ++ id) := by
  constructor
  · intro h
    simp [resolve_device_name, h]
  · intro h
    simp [resolve_device_name, h, parent]

/-- Witness for C5: the two resolution examples from the specification. -/
theorem c5_resolve_device_name_witness :
    resolve_device_name "p2" "enterprises/p1/devices/d1" =
      "enterprises/p1/devices/d1" ∧
    resolve_device_name "p2" "d1" = "enterprises/p2/devices/d1" :=
  ⟨(c5_resolve_device_name_spec "p2" "enterprises/p1/devices/d1").1 (by decide),
   (c5_resolve_device_name_spec "p2" "d1").2 (by decide)⟩

/-- C6: the temperature conversions are mutually inverse: for every
Fahrenheit value f, celsius_to_fahrenheit (fahrenheit_to_celsius f) is
within 1e-9 of f (in the exact-rational model the round trip is exact). -/
theorem c6_temperature_round_trip (f : ℚ) :
    |celsius_to_fahrenheit (fahrenheit_to_celsius f) - f| ≤ 1 / 1000000000 := by
  have h : celsius_to_fahrenheit (fahrenheit_to_celsius f) = f := by
    unfold celsius_to_fahrenheit fahrenheit_to_celsius
    ring
  rw [h, sub_self, abs_zero]
  norm_num

/-- C7: set_mode matches its input case-insensitively against heat, cool,
heatcool and off: every input whose lowercasing is one of the four modes
produces the canonical ThermostatMode.SetMode command with the mode
parameter in canonical upper case. -/
theorem c7_set_mode_case_insensitive (s : String) :
    (to_lowercase s = "heat" → set_mode s =
      Except.ok ⟨"sdm.devices.commands.ThermostatMode.SetMode",
        [("mode", Json.str "HEAT")]⟩) ∧
    (to_lowercase s = "cool" → set_mode s =
      Except.ok ⟨"sdm.devices.commands.ThermostatMode.SetMode",
        [("mode", Json.str "COOL")]⟩) ∧
    (to_lowercase s = "heatcool" → set_mode s =
      Except.ok ⟨"sdm.devices.commands.ThermostatMode.SetMode",
        [("mode", Json.str "HEATCOOL")]⟩) ∧
    (to_lowercase s = "off" → set_mode s =
      Except.ok ⟨"sdm.devices.commands.ThermostatMode.SetMode",
        [("mode", Json.str "OFF")]⟩) := by
  refine ⟨?_, ?_, ?_, ?_⟩ <;> intro h <;> simp [set_mode, h]

/-- Witness for C7: "Heat", "HEAT" and "heat" all produce the identical
canonical command. -/
theorem c7_set_mode_case_insensitive_witness :
    set_mode "Heat" =
      Except.ok ⟨"sdm.devices.commands.ThermostatMode.SetMode",
        [("mode", Json.str "HEAT")]⟩ ∧
    set_mode "HEAT" =
      Except.ok ⟨"sdm.devices.commands.ThermostatMode.SetMode",
        [("mode", Json.str "HEAT")]⟩ ∧
    set_mode "heat" =
      Except.ok ⟨"sdm.devices.commands.ThermostatMode.SetMode",
        [("mode", Json.str "HEAT")]⟩ :=
  ⟨(c7_set_mode_case_insensitive "Heat").1 (by decide),
   (c7_set_mode_case_insensitive "HEAT").1 (by decide),
   (c7_set_mode_case_insensitive "heat").1 (by decide)⟩

/-- C8 counterexample: the rejected input "BOGUS" yields an error message
naming only the lowercased form "bogus"; the message does not name the
offending input string "BOGUS" itself. -/
theorem c8_set_mode_names_lowercase_counterexample :
    error_msg (set_mode "BOGUS") =
      some "Unknown mode: bogus. Use heat, cool, heatcool, or off." ∧
    mentions "Unknown mode: bogus. Use heat, cool, heatcool, or off."
      "BOGUS" = false := by
  constructor
  · decide
  · decide

/-- C8 (amended): every input whose lowercasing is none of heat, cool,
heatcool, off fails with the unknown-mode error naming the lowercased
offending input, and no command is produced. -/
theorem c8_set_mode_unknown_fails (s : String)
    (h1 : to_lowercase s ≠ "heat") (h2 : to_lowercase s ≠ "cool")
    (h3 : to_lowercase s ≠ "heatcool") (h4 : to_lowercase s ≠ "off") :
    set_mode s =
      Except.error ("Unknown mode: " ++ to_lowercase s ++
        ". Use heat, cool, heatcool, or off.") := by
  simp [set_mode, h1, h2, h3, h4]

/-- Witness for C8: input "invalid" fails and the message names
"invalid". -/
theorem c8_set_mode_unknown_fails_witness :
    set_mode "invalid" =
      Except.error ("Unknown mode: " ++ to_lowercase "invalid" ++
        ". Use heat, cool, heatcool, or off.") ∧
    mentions ("Unknown mode: " ++ to_lowercase "invalid" ++
        ". Use heat, cool, heatcool, or off.") "invalid" = true :=
  ⟨c8_set_mode_unknown_fails "invalid"
      (by decide) (by decide) (by decide) (by decide),
   by decide⟩

/-- Members of an opt_field block are exactly the block's constructor
applied to the present value. -/
theorem mem_opt_field_iff {α : Type} (o : Option α) (mk : α → StatusField)
    (x : StatusField) :
    x ∈ opt_field o mk ↔ ∃ a, o = some a ∧ x = mk a := by
  cases o <;> simp [opt_field]

/-- Members of the setpoint block come from a present setpoint trait. -/
theorem mem_setpoint_fields_iff (traits : Traits) (x : StatusField) :
    x ∈ setpoint_fields traits ↔
      ∃ sp, get_trait traits "ThermostatTemperatureSetpoint" = some sp ∧
        (x ∈ opt_field ((sp.get "heatCelsius").bind Json.asF64)
              StatusField.heatSetpoint ∨
         x ∈ opt_field ((sp.get "coolCelsius").bind Json.asF64)
              StatusField.coolSetpoint) := by
  unfold setpoint_fields
  cases hg : get_trait traits "ThermostatTemperatureSetpoint" with
  | none => simp
  | some sp => simp [List.mem_append]

/-- C1 counterexample: in the login trace, the 0600 chmod of each secret
file does not precede the write of its secret contents — the contents
land first. -/
theorem c1_login_chmod_not_before_write_counterexample :
    chmod_before_write (login_trace "client_secret.json")
      client_secret_dest 0o600 client_secret_dest = false ∧
    chmod_before_write (login_trace "client_secret.json")
      project_id_dest 0o600 project_id_dest = false := by
  constructor
  · decide
  · decide

/-- C1 (amended): during login, the owner-only 0600 permissions of each
secret file (client_secret.json, project_id) are applied immediately
after its secret contents are written — not before — and the containing
directory is restricted to 0700 before either file is written. -/
theorem c1_login_restricts_after_write (src : String) :
    chmod_follows_write (login_trace src) client_secret_dest = true ∧
    chmod_follows_write (login_trace src) project_id_dest = true ∧
    chmod_before_write (login_trace src) config_dir 0o700
      client_secret_dest = true ∧
    chmod_before_write (login_trace src) config_dir 0o700
      project_id_dest = true := by
  refine ⟨?_, ?_, ?_, ?_⟩ <;> rfl

/-- C2 counterexample: with a persisted client registration but no
persisted TokenSet, get_authenticator succeeds rather than failing with
the not-authenticated error. -/
theorem c2_get_authenticator_counterexample :
    get_authenticator ⟨true, false⟩ = Except.ok () := rfl

/-- C2 (amended): get_authenticator fails with the not-logged-in error
(directing the user to run login) exactly when no persisted client
registration exists; in particular before any login it fails, and it
itself never starts the interactive flow. -/
theorem c2_get_authenticator_fails_iff_no_registration (s : CredState) :
    (get_authenticator s =
      Except.error "Not logged in. Run `nest-cli auth login` first.") ↔
      s.clientSecretExists = false := by
  cases s with
  | mk cs ts => cases cs <;> simp [get_authenticator]

/-- C9 counterexample: a device whose response carries no trait map at
all makes status formatting fail with "Device has no traits". -/
theorem c9_device_status_no_traits_counterexample :
    device_status none = Except.error "Device has no traits" := rfl

/-- C9 (amended): over every device state that carries a trait map,
status formatting succeeds, and each optional field is independently
absent-tolerant: a missing trait contributes no field to the report. -/
theorem c9_device_status_absent_tolerant (traits : Traits) :
    (device_status (some traits)).isOk = true ∧
    (get_trait traits "Temperature" = none →
      ∀ c, StatusField.temperature c ∉ status_report traits) ∧
    (get_trait traits "Humidity" = none →
      ∀ p, StatusField.humidity p ∉ status_report traits) ∧
    (get_trait traits "ThermostatMode" = none →
      ∀ m, StatusField.mode m ∉ status_report traits) ∧
    (get_trait traits "ThermostatHvac" = none →
      ∀ v, StatusField.hvac v ∉ status_report traits) ∧
    (get_trait traits "ThermostatTemperatureSetpoint" = none →
      ∀ q, StatusField.heatSetpoint q ∉ status_report traits ∧
        StatusField.coolSetpoint q ∉ status_report traits) ∧
    (get_trait traits "ThermostatEco" = none →
      ∀ m, StatusField.eco m ∉ status_report traits) ∧
    (get_trait traits "Connectivity" = none →
      ∀ v, StatusField.connectivity v ∉ status_report traits) := by
  refine ⟨rfl, ?_, ?_, ?_, ?_, ?_, ?_, ?_⟩
  · intro h c
    simp [status_report, mem_opt_field_iff, mem_setpoint_fields_iff,
      info_field, temp_value, h]
  · intro h p
    simp [status_report, mem_opt_field_iff, mem_setpoint_fields_iff,
      info_field, humidity_value, h]
  · intro h m
    simp [status_report, mem_opt_field_iff, mem_setpoint_fields_iff,
      info_field, mode_value, h]
  · intro h v
    simp [status_report, mem_opt_field_iff, mem_setpoint_fields_iff,
      info_field, hvac_value, h]
  · intro h q
    constructor <;>
      simp [status_report, mem_opt_field_iff, mem_setpoint_fields_iff,
        info_field, h]
  · intro h m
    simp [status_report, mem_opt_field_iff, mem_setpoint_fields_iff,
      info_field, eco_value, h]
  · intro h v
    simp [status_report, mem_opt_field_iff, mem_setpoint_fields_iff,
      info_field, connectivity_value, h]

/-- Witness for C9: the empty trait map formats successfully and omits
every optional field. -/
theorem c9_device_status_absent_tolerant_witness :
    (device_status (some ([] : Traits))).isOk = true ∧
    StatusField.temperature 20 ∉ status_report [] ∧
    StatusField.humidity 50 ∉ status_report [] ∧
    StatusField.mode "HEAT" ∉ status_report [] ∧
    StatusField.hvac "HEATING" ∉ status_report [] ∧
    (StatusField.heatSetpoint 20 ∉ status_report [] ∧
      StatusField.coolSetpoint 20 ∉ status_report []) ∧
    StatusField.eco "MANUAL_ECO" ∉ status_report [] ∧
    StatusField.connectivity "ONLINE" ∉ status_report [] :=
  ⟨(c9_device_status_absent_tolerant []).1,
   (c9_device_status_absent_tolerant []).2.1 rfl 20,
   (c9_device_status_absent_tolerant []).2.2.1 rfl 50,
   (c9_device_status_absent_tolerant []).2.2.2.1 rfl "HEAT",
   (c9_device_status_absent_tolerant []).2.2.2.2.1 rfl "HEATING",
   (c9_device_status_absent_tolerant []).2.2.2.2.2.1 rfl 20,
   (c9_device_status_absent_tolerant []).2.2.2.2.2.2.1 rfl "MANUAL_ECO",
   (c9_device_status_absent_tolerant []).2.2.2.2.2.2.2 rfl "ONLINE"⟩

/-- C10: the devices-list output shows only THERMOSTAT_TYPE devices:
when no device has that type the output is exactly the no-thermostats
message (a success, not an error), and every other output line comes
from a device of that type. -/
theorem c10_list_devices_thermostats_only (devices : List Device) :
    ((∀ d ∈ devices, d.type_ ≠ some THERMOSTAT_TYPE) →
      list_devices_output devices = ["No thermostats found."]) ∧
    (∀ l ∈ list_devices_output devices,
      l = "No thermostats found." ∨
        ∃ d ∈ devices, d.type_ = some THERMOSTAT_TYPE ∧ l = device_line d) := by
  constructor
  · intro h
    have hf : devices.filter (fun d => d.type_ == some THERMOSTAT_TYPE) = [] := by
      rw [List.filter_eq_nil_iff]
      intro d hd
      simp [h d hd]
    simp [list_devices_output, hf]
  · intro l hl
    by_cases hf :
        devices.filter (fun d => d.type_ == some THERMOSTAT_TYPE) = []
    · left
      simpa [list_devices_output, hf] using hl
    · right
      have hl' : l ∈ (devices.filter
          (fun d => d.type_ == some THERMOSTAT_TYPE)).map device_line := by
        simpa [list_devices_output, List.isEmpty_iff, hf] using hl
      obtain ⟨d, hd, hdl⟩ := List.mem_map.mp hl'
      obtain ⟨hdd, hdt⟩ := List.mem_filter.mp hd
      refine ⟨d, hdd, ?_, hdl.symm⟩
      simpa using hdt

/-- Witness for C10: a list holding only a camera-type device yields the
no-thermostats message. -/
theorem c10_list_devices_thermostats_only_witness :
    list_devices_output
      [⟨some "sdm.devices.types.CAMERA",
        some "enterprises/p/devices/c1", none⟩] =
      ["No thermostats found."] :=
  (c10_list_devices_thermostats_only
    [⟨some "sdm.devices.types.CAMERA",
      some "enterprises/p/devices/c1", none⟩]).1 (by decide)

end NestCli
